import Mathlib

/-!
Shallow embedding of the `media` ink! contract
(`contracts/media/src/lib.rs`, `models.rs`, `constants.rs`) and proofs of
specification claims about it.

Modelling choices:
* `AccountId`, `MediaId`, `SharingId` are `Nat`; `Balance`/`CollabShare`
  (Rust `u128`) are `Nat`.  Where the source uses `checked_mul`, the model
  checks the product against `2 ^ 128` explicitly.
* `BTreeMap` / `HashMap` storage maps are association lists with
  first-match lookup and in-place replacing insert; claims that depend on
  key uniqueness carry an explicit `Nodup` hypothesis.
* Each contract message is a pure function from the caller, the ambient
  environment (block timestamp, external ERC-20 balances, stream/transfer
  call outcomes) and the storage to an `Except` result; an `Err` result
  commits no state change (the host rolls back all effects of a failed
  call).
* `open_media` ends in `todo!("send reward to pod-media")` in the source,
  which panics on every path that completes the payment block, and its
  sharing-chain walk is a `while` loop that can fail to terminate; its
  model therefore returns a `RunResult` with explicit `panic` and
  `diverge` outcomes, the loop being driven by fuel.
-/

/-! ### Association-list maps (model of `BTreeMap` / `ink_storage HashMap`) -/

abbrev AccountId := Nat
abbrev MediaId := Nat
abbrev SharingId := Nat
abbrev Balance := Nat
abbrev CollabShare := Nat
abbrev StreamId := Nat

abbrev Map (K V : Type) := List (K × V)

/-- First-match lookup, the model of `BTreeMap::get` / `HashMap::get`. -/
def lookupMap {K V : Type} [DecidableEq K] : Map K V → K → Option V
  | [], _ => none
  | (k, v) :: rest, key => if k = key then some v else lookupMap rest key

/-- Replace the binding of `key` in place, or append it: `insert`. -/
def insertMap {K V : Type} [DecidableEq K] : Map K V → K → V → Map K V
  | [], key, val => [(key, val)]
  | (k, v) :: rest, key, val =>
      if k = key then (key, val) :: rest else (k, v) :: insertMap rest key val

/-- Remove the first binding of `key`: `remove` / `take`. -/
def eraseMap {K V : Type} [DecidableEq K] : Map K V → K → Map K V
  | [], _ => []
  | (k, v) :: rest, key => if k = key then rest else (k, v) :: eraseMap rest key

/-- Model of `map.entry(key).and_modify(|x| *x += val).or_insert(val)`. -/
def addToMap {K : Type} [DecidableEq K] : Map K Nat → K → Nat → Map K Nat
  | [], key, val => [(key, val)]
  | (k, v) :: rest, key, val =>
      if k = key then (k, v + val) :: rest else (k, v) :: addToMap rest key val

/-- Membership test, the model of `contains_key`. -/
def containsMap {K V : Type} [DecidableEq K] (m : Map K V) (key : K) : Bool :=
  (lookupMap m key).isSome

/-- The keys of a map, in storage order. -/
def keysMap {K V : Type} (m : Map K V) : List K := m.map Prod.fst

/-! ### Data model (`models.rs`) -/

/-- Model of `enum MediaType`. -/
inductive MediaType where
  | Audio | Video | LiveAudio | LiveVideo | Blog | BlogSnap | DigitalArt | Claimable
deriving DecidableEq, Repr

/-- Model of `enum ViewingType`: `Dynamic` streams payouts, `Fixed` transfers them. -/
inductive ViewingType where
  | Dynamic
  | Fixed
deriving DecidableEq, Repr

/-- Model of `struct NftInfo`. -/
structure NftInfo where
  funding_token : AccountId
  price : Balance
deriving DecidableEq, Repr

/-- Model of `struct ViewInfo`. -/
structure ViewInfo where
  viewing_type : ViewingType
  viewing_token : AccountId
  price : Balance
  sharing_percent : Nat
  is_streaming_live : Bool
  streaming_proportions : List (String × Balance)
  token_reward : List (AccountId × Balance)
  token_entry : Map AccountId Balance
  duration : Nat
deriving DecidableEq, Repr

/-- Model of `struct Media`. -/
structure Media where
  creator : AccountId
  media_name : String
  id : MediaId
  pod_address : AccountId
  type_ : MediaType
  release_date : Nat
  view_conditions : ViewInfo
  nft_conditions : NftInfo
  is_registered : Bool
  is_uploaded : Bool
  royalty : Balance
deriving DecidableEq, Repr

/-- Model of `struct UpdateMediaRequest`. -/
structure UpdateMediaRequest where
  media_id : MediaId
  creator_address : AccountId
  media_name : String
  type_ : MediaType
  view_conditions : ViewInfo
  nft_conditions : NftInfo
  royalty : Balance
  collabs : Map AccountId CollabShare
deriving DecidableEq, Repr

/-- Model of `enum UpdateMediaProposalState`. -/
inductive UpdateMediaProposalState where
  | Pending | Accepted | Denied
deriving DecidableEq, Repr

/-- Model of `struct UpdateMediaProposal`. -/
structure UpdateMediaProposal where
  media_id : MediaId
  requester_address : AccountId
  update_request : UpdateMediaRequest
  votes : Map AccountId Bool
  state : UpdateMediaProposalState
  min_approvals : Nat
  max_denials : Nat
  duration : Nat
  date : Nat
deriving DecidableEq, Repr

/-- Model of `struct ProposalKey`. -/
structure ProposalKey where
  media_id : MediaId
  requester : AccountId
deriving DecidableEq, Repr

/-- Model of `struct MediaSharing`. -/
structure MediaSharing where
  media_id : MediaId
  parent_id : Option SharingId
  address : AccountId
  id : SharingId
deriving DecidableEq, Repr

/-- Model of `enum Error` (`errors.rs`); errors of the three external
contracts are collapsed to one code-carrying variant each. -/
inductive Error where
  | InvalidSumOfCollabShares
  | CollabShareOutOfRange
  | Overflow
  | OwnerRequired
  | CollaboratorsNotFound
  | MediaNotFound
  | InvalidMediaSharingParentId
  | MediaSharingParentNotFound
  | MediaSharingNotFound
  | CommunityNotFound
  | ProposalNotFound
  | RequiresCollaborator
  | VoteNotAllowed
  | InsufficientBalance
  | Erc1620Failure (code : Nat)
  | Erc20Failure (code : Nat)
  | Erc721Failure (code : Nat)
  | PodAddressRequired
deriving DecidableEq, Repr

/-- Model of the `#[ink(storage)] struct MediaStorage`. -/
structure MediaStorage where
  owner : AccountId
  next_sharing_id : SharingId
  medias_by_id : Map MediaId Media
  collaborators_by_media_id : Map MediaId (Map AccountId CollabShare)
  media_sharings_by_id : Map SharingId MediaSharing
  streams_by_media_id : Map MediaId (List StreamId)
  proposals_by_key : Map ProposalKey UpdateMediaProposal
  communities_by_proposal_key : Map ProposalKey (Map AccountId Unit)
deriving DecidableEq, Repr

/-! ### Constants (`constants.rs`, `contract-utils/src/time.rs`) -/

/-- `GET_SHARING_PROPORTIONS_DEPTH`: the number of parents to search. -/
def GET_SHARING_PROPORTIONS_DEPTH : Nat := 3

/-- `UPDATE_MEDIA_PROPOSAL_DURATION = contract_utils::time::WEEK` (ms). -/
def UPDATE_MEDIA_PROPOSAL_DURATION : Nat := 7 * 24 * 60 * 60 * 1000

/-- `COLLAB_SHARE_COUNT`: the total number of shares a collab can have. -/
def COLLAB_SHARE_COUNT : Nat := 1000000000

/-- Rust `u128::checked_mul`: `none` models arithmetic overflow. -/
def checked_mul (a b : Nat) : Option Nat :=
  if a * b < 2 ^ 128 then some (a * b) else none

/-- The contract state built by the constructor `MediaStorage::new`. -/
def initialStorage (contract_owner : AccountId) : MediaStorage :=
  { owner := contract_owner
    next_sharing_id := 0
    medias_by_id := []
    collaborators_by_media_id := []
    media_sharings_by_id := []
    streams_by_media_id := []
    proposals_by_key := []
    communities_by_proposal_key := [] }

/-! ### Vote counting (`models.rs`, `UpdateMediaProposal::count_votes` / `is_expired`) -/

/-- Model of `count_votes`: fold over the vote values tallying yes/no. -/
def count_votes (votes : Map AccountId Bool) : Nat × Nat :=
  votes.foldl
    (fun acc kv => if kv.2 then (acc.1 + 1, acc.2) else (acc.1, acc.2 + 1))
    (0, 0)

/-- Model of `is_expired`: `self.date + self.duration <= now`. -/
def is_expired (p : UpdateMediaProposal) (now : Nat) : Bool :=
  p.date + p.duration ≤ now

/-! ### Revenue distribution utilities (`mod utils`) -/

/-- Model of `utils::distribute_amount`: for each `(account, share)` add
`amount * (share / COLLAB_SHARE_COUNT)` into that bucket (the division is
performed first, exactly as in the source). -/
def distribute_amount (amount : Balance) (receivers : Map AccountId CollabShare)
    (into : Map AccountId Balance) : Map AccountId Balance :=
  receivers.foldl
    (fun m kv => addToMap m kv.1 (amount * (kv.2 / COLLAB_SHARE_COUNT)))
    into

/-- Model of `utils::get_royalties`: `fee = amount * royalty`, distributed
over the collaborators; returns the fee and the updated map. -/
def get_royalties (amount royalty : Balance) (collabs : Map AccountId CollabShare)
    (into : Map AccountId Balance) : Balance × Map AccountId Balance :=
  (amount * royalty, distribute_amount (amount * royalty) collabs into)

/-- Model of `utils::get_owners_profit`: distribute `payment` over the
collaborators. -/
def get_owners_profit (payment : Balance) (collabs : Map AccountId CollabShare)
    (into : Map AccountId Balance) : Map AccountId Balance :=
  distribute_amount payment collabs into

/-! ### Sharing chain walk (`get_sharing_chain`)

The source is a `while depth > 0` loop; when the current sharing id is not
in `media_sharings_by_id` the body neither decrements `depth` nor breaks,
so the loop spins forever.  The model makes one loop-guard evaluation plus
one body execution a `chainStepF` step, and runs the loop on fuel;
`none` from `chainRun` means fuel ran out with the loop still spinning. -/

/-- Loop state of `get_sharing_chain`: the mutable locals of the source. -/
structure ChainState where
  sharing_id : SharingId
  depth : Nat
  accounts : List AccountId
deriving DecidableEq, Repr

/-- One observation of a `get_sharing_chain` loop iteration. -/
inductive ChainStep where
  | more (s : ChainState)
  | done (accounts : List AccountId)
deriving DecidableEq, Repr

/-- One iteration of the `while depth > 0` loop of `get_sharing_chain`. -/
def chainStepF (sharings : Map SharingId MediaSharing) (s : ChainState) : ChainStep :=
  if s.depth = 0 then .done s.accounts
  else
    match lookupMap sharings s.sharing_id with
    | none => .more s
    | some data =>
        let accounts := s.accounts ++ [data.address]
        match data.parent_id with
        | some pid => .more { sharing_id := pid, depth := s.depth - 1, accounts := accounts }
        | none => .done accounts

/-- Run the `get_sharing_chain` loop for at most `fuel` iterations;
`none` means the loop had not terminated. -/
def chainRun (sharings : Map SharingId MediaSharing) : Nat → ChainState → Option (List AccountId)
  | 0, _ => none
  | fuel + 1, s =>
      match chainStepF sharings s with
      | .done accounts => some accounts
      | .more s' => chainRun sharings fuel s'

/-- Model of `get_sharing_chain(sharing_id, depth)`, fuelled. -/
def get_sharing_chain (st : MediaStorage) (sharing_id : SharingId) (depth fuel : Nat) :
    Option (List AccountId) :=
  chainRun st.media_sharings_by_id fuel
    { sharing_id := sharing_id, depth := depth, accounts := [] }

/-! ### Sharing proportions (`get_sharing_proportions`) -/

/-- Model of `get_sharing_division_factor`: `n * (n + 1) / 2`. -/
def get_sharing_division_factor (n : Nat) : Nat := n * (n + 1) / 2

/-- The proportion computation of `get_sharing_proportions` applied to an
already-computed chain: `shared = price * sharing_percent / 100`, and the
`i`-th chain member is inserted with `(total - i) / factor * shared`. -/
def sharing_proportions_of_chain (info : ViewInfo) (price : Balance)
    (chain : List AccountId) : Balance × Map AccountId Balance :=
  let total := chain.length
  let factor := get_sharing_division_factor total
  let shared := price * info.sharing_percent / 100
  let balances :=
    if info.sharing_percent > 0 then
      (chain.enum).foldl (fun m iv => insertMap m iv.2 ((total - iv.1) / factor * shared)) []
    else []
  (shared, balances)

/-- Model of `get_sharing_proportions(info, price, sharing_id, depth)`;
`none` propagates non-termination of the chain walk. -/
def get_sharing_proportions (st : MediaStorage) (info : ViewInfo) (price : Balance)
    (sharing_id : SharingId) (depth fuel : Nat) :
    Option (Balance × Map AccountId Balance) :=
  (get_sharing_chain st sharing_id depth fuel).map
    (sharing_proportions_of_chain info price)

/-! ### Request types (`models.rs`, `mod input`) -/

/-- Model of `struct CreateMediaRequest`. -/
structure CreateMediaRequest where
  creator_address : AccountId
  media_name : String
  pod_address : AccountId
  type_ : MediaType
  view_conditions : ViewInfo
  nft_conditions : NftInfo
  royalty : Balance
  collabs : Option (Map AccountId CollabShare)
deriving DecidableEq, Repr

/-- Model of `struct UpdateMediaVote`. -/
structure UpdateMediaVote where
  media_id : MediaId
  requester_address : AccountId
  vote : Bool
deriving DecidableEq, Repr

/-- Model of `struct FractionaliseCollabRequest`. -/
structure FractionaliseCollabRequest where
  media_id : MediaId
  sharings : Map AccountId CollabShare
deriving DecidableEq, Repr

/-- Model of `struct OpenMediaRequest`. -/
structure OpenMediaRequest where
  media_id : MediaId
  sharing_id : Option SharingId
deriving DecidableEq, Repr

/-- Model of `struct ShareMediaRequest`. -/
structure ShareMediaRequest where
  media_id : MediaId
  parent_id : Option SharingId
deriving DecidableEq, Repr

/-- Model of `struct TipMediaRequest`. -/
structure TipMediaRequest where
  media_id : MediaId
  amount : Balance
  token : AccountId
deriving DecidableEq, Repr

/-! ### The ambient environment

The caller, the block timestamp and the outcomes of all cross-contract
calls (ERC-20 balances and transfers, ERC-721 minting, ERC-1620 stream
creation/cancellation, the keccak-based reward-account derivation) are
oracles supplied by the host. -/

/-- Ambient environment of one message invocation. -/
structure Env where
  caller : AccountId
  now : Nat
  /-- `Erc20::balance_of`: token contract, owner. -/
  erc20_balance : AccountId → AccountId → Balance
  /-- `contract_utils::get_reward_account_id`, a hash-based derivation. -/
  reward_account : AccountId → AccountId
  /-- `Erc721::mint(owner)`, returning the fresh token id. -/
  mint_result : AccountId → Except Error MediaId
  /-- `Erc1620::create_stream(recipient, deposit, token, start, stop)`. -/
  create_stream_result : AccountId → Balance → AccountId → Nat → Nat → Except Error StreamId
  /-- `Erc20::transfer_from(token, source, destination, amount)`. -/
  transfer_from_result : AccountId → AccountId → AccountId → Balance → Except Error Unit
  /-- `Erc1620::cancel_stream(stream_id)`. -/
  cancel_stream_result : StreamId → Except Error Unit

/-! ### Contract messages

Each message is a pure function; an `Except.error` result models a failed
call whose effects the host rolls back, so the state it would have built
is discarded. -/

/-- Model of `create_media`: mint an NFT id for the caller, store the
record (release date = block time, `is_registered = is_uploaded = false`)
and the supplied or empty collaborator map. -/
def create_media (env : Env) (st : MediaStorage) (input : CreateMediaRequest) :
    Except Error (MediaStorage × MediaId) :=
  match env.mint_result env.caller with
  | .error e => .error e
  | .ok media_id =>
      let media : Media :=
        { creator := input.creator_address
          media_name := input.media_name
          id := media_id
          pod_address := input.pod_address
          type_ := input.type_
          release_date := env.now
          view_conditions := input.view_conditions
          nft_conditions := input.nft_conditions
          is_registered := false
          is_uploaded := false
          royalty := input.royalty }
      let st := { st with medias_by_id := insertMap st.medias_by_id media_id media }
      let st :=
        { st with collaborators_by_media_id :=
            insertMap st.collaborators_by_media_id media_id (input.collabs.getD []) }
      .ok (st, media_id)

/-- Model of `create_update_media_proposal`: the caller must be a current
collaborator; the proposal snapshots the community and fixes
`min_approvals` to its size, `max_denials` to 1 and the duration to one
week. -/
def create_update_media_proposal (caller : AccountId) (now : Nat) (st : MediaStorage)
    (request : UpdateMediaRequest) : Except Error MediaStorage :=
  match lookupMap st.collaborators_by_media_id request.media_id with
  | none => .error .CollaboratorsNotFound
  | some collaborators =>
      if containsMap collaborators caller then
        match lookupMap st.medias_by_id request.media_id with
        | none => .error .MediaNotFound
        | some media =>
            let key : ProposalKey := { media_id := media.id, requester := caller }
            let proposal : UpdateMediaProposal :=
              { media_id := media.id
                requester_address := caller
                update_request := request
                votes := []
                state := .Pending
                min_approvals := collaborators.length
                max_denials := 1
                duration := UPDATE_MEDIA_PROPOSAL_DURATION
                date := now }
            let st := { st with proposals_by_key := insertMap st.proposals_by_key key proposal }
            let community : Map AccountId Unit := collaborators.map (fun kv => (kv.1, ()))
            let communities := insertMap st.communities_by_proposal_key key community
            .ok { st with communities_by_proposal_key := communities }
      else .error .RequiresCollaborator

/-- Model of `vote_media_update_proposal`: record the caller's vote, then
resolve: expiry or any no-vote discards the proposal; enough yes-votes
apply the requested fields and collaborator map and discard it; otherwise
it stays pending with the vote recorded. -/
def vote_media_update_proposal (caller : AccountId) (now : Nat) (st : MediaStorage)
    (vote : UpdateMediaVote) : Except Error MediaStorage :=
  let key : ProposalKey := { media_id := vote.media_id, requester := vote.requester_address }
  match lookupMap st.proposals_by_key key with
  | none => .error .ProposalNotFound
  | some proposal0 =>
      match lookupMap st.communities_by_proposal_key key with
      | none => .error .ProposalNotFound
      | some community =>
          if containsMap community caller then
            let proposal := { proposal0 with votes := insertMap proposal0.votes caller vote.vote }
            let st := { st with proposals_by_key := insertMap st.proposals_by_key key proposal }
            let counts := count_votes proposal.votes
            if is_expired proposal now || counts.2 ≥ proposal.max_denials then
              .ok { st with
                      proposals_by_key := eraseMap st.proposals_by_key key
                      communities_by_proposal_key := eraseMap st.communities_by_proposal_key key }
            else if counts.1 ≥ proposal.min_approvals then
              let st :=
                { st with
                    proposals_by_key := eraseMap st.proposals_by_key key
                    communities_by_proposal_key := eraseMap st.communities_by_proposal_key key }
              let request := proposal.update_request
              let st :=
                { st with collaborators_by_media_id :=
                    insertMap st.collaborators_by_media_id vote.media_id request.collabs }
              match lookupMap st.medias_by_id vote.media_id with
              | none => .error .MediaNotFound
              | some media =>
                  let media :=
                    { media with
                        creator := request.creator_address
                        media_name := request.media_name
                        nft_conditions := request.nft_conditions
                        royalty := request.royalty
                        type_ := request.type_
                        view_conditions := request.view_conditions }
                  .ok { st with medias_by_id := insertMap st.medias_by_id vote.media_id media }
            else .ok st
          else .error .VoteNotAllowed

/-- The `for (address, share) in request.sharings` loop of
`fractionalise_media_collab`: each product `current_share * share` is
`checked_mul` (overflow fails the call) and `insert`ed. -/
def fractionalise_fold (current_share : CollabShare) :
    Map AccountId CollabShare → List (AccountId × CollabShare) →
    Except Error (Map AccountId CollabShare)
  | collabs, [] => .ok collabs
  | collabs, (address, share) :: rest =>
      match checked_mul current_share share with
      | none => .error .Overflow
      | some v => fractionalise_fold current_share (insertMap collabs address v) rest

/-- Model of `fractionalise_media_collab`: remove the caller's share entry
and insert `original_share * ratio` for each requested split. -/
def fractionalise_media_collab (caller : AccountId) (st : MediaStorage)
    (request : FractionaliseCollabRequest) : Except Error MediaStorage :=
  match lookupMap st.collaborators_by_media_id request.media_id with
  | none => .error .CollaboratorsNotFound
  | some collabs =>
      match lookupMap collabs caller with
      | none => .error .RequiresCollaborator
      | some current_share =>
          match fractionalise_fold current_share (eraseMap collabs caller) request.sharings with
          | .error e => .error e
          | .ok collabs2 =>
              .ok { st with collaborators_by_media_id :=
                      insertMap st.collaborators_by_media_id request.media_id collabs2 }

/-- Model of `update_media`: replace the record, pod address only. -/
def update_media (caller : AccountId) (st : MediaStorage) (media : Media) :
    Except Error (MediaStorage × Media) :=
  match lookupMap st.medias_by_id media.id with
  | none => .error .MediaNotFound
  | some stored =>
      if stored.pod_address = caller then
        .ok ({ st with medias_by_id := insertMap st.medias_by_id media.id media }, stored)
      else .error .PodAddressRequired

/-- Model of `update_collabs`: replace the collaborator map, pod address only. -/
def update_collabs (caller : AccountId) (st : MediaStorage) (id : MediaId)
    (collabs : Map AccountId CollabShare) : Except Error MediaStorage :=
  match lookupMap st.medias_by_id id with
  | none => .error .MediaNotFound
  | some stored =>
      if stored.pod_address = caller then
        .ok { st with collaborators_by_media_id := insertMap st.collaborators_by_media_id id collabs }
      else .error .PodAddressRequired

/-- Model of `share_media`: validate the optional parent (same media id,
created by the caller), then allocate the next monotonic sharing id and
store the node. -/
def share_media (caller : AccountId) (st : MediaStorage) (request : ShareMediaRequest) :
    Except Error (MediaStorage × SharingId) :=
  let parent_check : Except Error Unit :=
    match request.parent_id with
    | none => .ok ()
    | some parent_id =>
        match lookupMap st.media_sharings_by_id parent_id with
        | none => .error .MediaSharingParentNotFound
        | some parent =>
            if parent.media_id ≠ request.media_id ∨ parent.address ≠ caller then
              .error .InvalidMediaSharingParentId
            else .ok ()
  match parent_check with
  | .error e => .error e
  | .ok _ =>
      let sharing_id := st.next_sharing_id
      let st := { st with next_sharing_id := st.next_sharing_id + 1 }
      let node : MediaSharing :=
        { media_id := request.media_id
          parent_id := request.parent_id
          address := caller
          id := sharing_id }
      let sharings := insertMap st.media_sharings_by_id sharing_id node
      .ok ({ st with media_sharings_by_id := sharings }, sharing_id)

/-! ### Payment dispatch loops -/

/-- The `transfer_from(payment_account, receiver, balance)?` loop over a
payout map (used by `open_media` in `Fixed` mode and by `tip_media`). -/
def run_transfers (env : Env) (token source : AccountId) :
    List (AccountId × Balance) → Except Error Unit
  | [] => .ok ()
  | (receiver, amount) :: rest =>
      match env.transfer_from_result token source receiver amount with
      | .error e => .error e
      | .ok _ => run_transfers env token source rest

/-- The `create_stream(receiver, balance, token, now, now + duration)?`
loop over a payout map (used by `open_media` in `Dynamic` mode). -/
def run_streams (env : Env) (token : AccountId) (duration : Nat) :
    List (AccountId × Balance) → Except Error Unit
  | [] => .ok ()
  | (receiver, amount) :: rest =>
      match env.create_stream_result receiver amount token env.now (env.now + duration) with
      | .error e => .error e
      | .ok _ => run_streams env token duration rest

/-- The `cancel_stream(stream_id)?` loop of `close_media`. -/
def cancel_streams (env : Env) : List StreamId → Except Error Unit
  | [] => .ok ()
  | stream_id :: rest =>
      match env.cancel_stream_result stream_id with
      | .error e => .error e
      | .ok _ => cancel_streams env rest

/-! ### `tip_media`

`tip_media` takes `&self`: it never writes contract storage.  Its model
returns the payout map whose entries the transfer loop dispatches, so the
receivers of the executed transfers are exactly the keys of the result. -/

/-- Model of `tip_media`: royalties plus owner profit on the tipped
amount, transferred from the caller to every receiver in the payout map
(no self-payment removal is performed). -/
def tip_media (env : Env) (st : MediaStorage) (request : TipMediaRequest) :
    Except Error (List (AccountId × Balance)) :=
  match lookupMap st.medias_by_id request.media_id with
  | none => .error .MediaNotFound
  | some media =>
      match lookupMap st.collaborators_by_media_id request.media_id with
      | none => .error .CollaboratorsNotFound
      | some collabs =>
          let caller := env.caller
          let balance := env.erc20_balance request.token caller
          let payment_amount := request.amount
          if balance < request.amount then .error .InsufficientBalance
          else
            let fee_payments := get_royalties payment_amount media.royalty collabs []
            let payments := get_owners_profit (payment_amount - fee_payments.1) collabs fee_payments.2
            match run_transfers env request.token caller payments with
            | .error e => .error e
            | .ok _ => .ok payments

/-! ### `open_media`

The source ends in `todo!("send reward to pod-media")`, reached on every
path that passes the payment block (including the free-entry path), so the
message can never return `Ok`; and the sharing-chain walk can spin
forever.  `RunResult` makes both failure modes explicit. -/

/-- Observable outcome of a fuelled `open_media` run. -/
inductive RunResult where
  | ok
  | err (e : Error)
  | panic
  | diverge
deriving DecidableEq, Repr

/-- The entry-token gate of `open_media`: the first configured
`(token, requested)` pair for which the caller's balance reaches the
minimum zeroes the payment and stops the scan.  -/
def entry_gate (env : Env) (caller : AccountId) :
    List (AccountId × Balance) → Balance → Balance
  | [], payment => payment
  | (token_account, requested) :: rest, payment =>
      if env.erc20_balance token_account caller ≥ requested then 0
      else entry_gate env caller rest payment

/-- Everything `open_media` computes before dispatching payments: the
selected payment account and the assembled payout map (after the
`payments.take(&caller)` self-payment removal). -/
structure PaymentPlan where
  media : Media
  payment_account : AccountId
  payments : Map AccountId Balance
deriving DecidableEq, Repr

/-- Outcome of the pre-dispatch phase of `open_media`. -/
inductive PlanResult where
  | noPayment (media : Media)
  | plan (p : PaymentPlan)
  | err (e : Error)
  | diverge
deriving DecidableEq, Repr

/-- The pre-dispatch phase of `open_media`: entry gate, payment-account
selection, sharing proportions, royalties, owner profit, self-payment
removal. -/
def open_media_plan (env : Env) (st : MediaStorage) (fuel : Nat) (req : OpenMediaRequest) :
    PlanResult :=
  match lookupMap st.medias_by_id req.media_id with
  | none => .err .MediaNotFound
  | some media =>
      let caller := env.caller
      let payment_amount := media.view_conditions.price
      let payment_amount := entry_gate env caller media.view_conditions.token_entry payment_amount
      if payment_amount > 0 then
        let reward_account := env.reward_account caller
        let reward_balance := env.erc20_balance media.view_conditions.viewing_token reward_account
        let account_balance : AccountId × Balance :=
          if reward_balance ≥ payment_amount then (reward_account, reward_balance)
          else (caller, env.erc20_balance media.view_conditions.viewing_token caller)
        if account_balance.2 < payment_amount then .err .InsufficientBalance
        else
          let sharing :=
            match req.sharing_id with
            | some sid =>
                get_sharing_proportions st media.view_conditions payment_amount sid
                  GET_SHARING_PROPORTIONS_DEPTH fuel
            | none => some (0, [])
          match sharing with
          | none => .diverge
          | some shared_payments =>
              match lookupMap st.collaborators_by_media_id req.media_id with
              | none => .err .CollaboratorsNotFound
              | some collabs =>
                  let shared := shared_payments.1
                  let fee_payments :=
                    get_royalties payment_amount media.royalty collabs shared_payments.2
                  let fee := fee_payments.1
                  let payments :=
                    get_owners_profit (payment_amount - shared - fee) collabs fee_payments.2
                  let payments := eraseMap payments caller
                  .plan { media := media, payment_account := account_balance.1, payments := payments }
      else .noPayment media

/-- The payout dispatch of `open_media`: `Dynamic` opens one stream per
receiver, `Fixed` transfers from the payment account to each receiver. -/
def dispatch_payments (env : Env) (p : PaymentPlan) : Except Error Unit :=
  match p.media.view_conditions.viewing_type with
  | .Dynamic =>
      run_streams env p.media.view_conditions.viewing_token
        p.media.view_conditions.duration p.payments
  | .Fixed =>
      run_transfers env p.media.view_conditions.viewing_token p.payment_account p.payments

/-- Model of `open_media`: run the pre-dispatch phase, dispatch by viewing
type, then fall into `todo!("send reward to pod-media")` — a panic — on
every completed path. -/
def open_media (env : Env) (st : MediaStorage) (fuel : Nat) (req : OpenMediaRequest) :
    RunResult :=
  match open_media_plan env st fuel req with
  | .err e => .err e
  | .diverge => .diverge
  | .noPayment _ => .panic
  | .plan p =>
      match dispatch_payments env p with
      | .error e => .err e
      | .ok _ => .panic

/-- Model of `close_media`: take the streams recorded for the media id, if
any, and cancel each on the ERC-1620 ledger. -/
def close_media (env : Env) (st : MediaStorage) (media_id : MediaId) :
    Except Error MediaStorage :=
  match lookupMap st.streams_by_media_id media_id with
  | none => .ok st
  | some stream_ids =>
      match cancel_streams env stream_ids with
      | .error e => .error e
      | .ok _ => .ok { st with streams_by_media_id := eraseMap st.streams_by_media_id media_id }

/-! ### Reachable states

Storage-mutating messages only.  `open_media` writes no storage field (its
body performs only external calls, and in the source every completing path
aborts in `todo!` before returning) and `tip_media` takes `&self`, so
neither contributes a transition; failed calls are rolled back and
contribute none either. -/

/-- States reachable from a fresh contract through a sequence of
successful message calls. -/
inductive Reachable : MediaStorage → Prop where
  | init (contract_owner : AccountId) : Reachable (initialStorage contract_owner)
  | step_create_media (env : Env) (st : MediaStorage) (input : CreateMediaRequest)
      (st' : MediaStorage) (id : MediaId) :
      Reachable st → create_media env st input = .ok (st', id) → Reachable st'
  | step_create_proposal (caller : AccountId) (now : Nat) (st : MediaStorage)
      (request : UpdateMediaRequest) (st' : MediaStorage) :
      Reachable st → create_update_media_proposal caller now st request = .ok st' → Reachable st'
  | step_vote (caller : AccountId) (now : Nat) (st : MediaStorage)
      (vote : UpdateMediaVote) (st' : MediaStorage) :
      Reachable st → vote_media_update_proposal caller now st vote = .ok st' → Reachable st'
  | step_fractionalise (caller : AccountId) (st : MediaStorage)
      (request : FractionaliseCollabRequest) (st' : MediaStorage) :
      Reachable st → fractionalise_media_collab caller st request = .ok st' → Reachable st'
  | step_update_media (caller : AccountId) (st : MediaStorage) (media : Media)
      (st' : MediaStorage) (old : Media) :
      Reachable st → update_media caller st media = .ok (st', old) → Reachable st'
  | step_update_collabs (caller : AccountId) (st : MediaStorage) (id : MediaId)
      (collabs : Map AccountId CollabShare) (st' : MediaStorage) :
      Reachable st → update_collabs caller st id collabs = .ok st' → Reachable st'
  | step_share_media (caller : AccountId) (st : MediaStorage) (request : ShareMediaRequest)
      (st' : MediaStorage) (sid : SharingId) :
      Reachable st → share_media caller st request = .ok (st', sid) → Reachable st'
  | step_close_media (env : Env) (st : MediaStorage) (media_id : MediaId)
      (st' : MediaStorage) :
      Reachable st → close_media env st media_id = .ok st' → Reachable st'

/-! ### Concrete fixtures used to evaluate the model on explicit inputs -/

/-- An environment in which every external call succeeds: the caller is
account 1, every ERC-20 balance is 1000000, and the reward account of `a`
is `a + 1000`. -/
def testEnv : Env :=
  { caller := 1
    now := 0
    erc20_balance := fun _ _ => 1000000
    reward_account := fun account => account + 1000
    mint_result := fun _ => .ok 1
    create_stream_result := fun _ _ _ _ _ => .ok 0
    transfer_from_result := fun _ _ _ _ => .ok ()
    cancel_stream_result := fun _ => .ok () }

/-- View conditions: instant payment of 1000 units of token 50, no
sharing, no entry tokens. -/
def baseViewInfo : ViewInfo :=
  { viewing_type := .Fixed
    viewing_token := 50
    price := 1000
    sharing_percent := 0
    is_streaming_live := false
    streaming_proportions := []
    token_reward := []
    token_entry := []
    duration := 100 }

/-- NFT conditions fixture. -/
def baseNft : NftInfo := { funding_token := 60, price := 0 }

/-- A media record with id 1, zero royalty and `baseViewInfo` pricing. -/
def baseMedia : Media :=
  { creator := 9
    media_name := "m"
    id := 1
    pod_address := 8
    type_ := .Video
    release_date := 0
    view_conditions := baseViewInfo
    nft_conditions := baseNft
    is_registered := false
    is_uploaded := false
    royalty := 0 }

/-- Storage holding media 1 with price 0 (the free-entry path of
`open_media`). -/
def freeSt : MediaStorage :=
  { initialStorage 0 with
      medias_by_id := [(1, { baseMedia with view_conditions := { baseViewInfo with price := 0 } })]
      collaborators_by_media_id := [(1, [])] }

/-- Storage where the caller (account 1) is the sole collaborator, holding
the full share, on media 1. -/
def tipSt : MediaStorage :=
  { initialStorage 0 with
      medias_by_id := [(1, baseMedia)]
      collaborators_by_media_id := [(1, [(1, COLLAB_SHARE_COUNT)])] }

/-- Storage where account 2 is the sole collaborator on media 1. -/
def openSt : MediaStorage :=
  { initialStorage 0 with
      medias_by_id := [(1, baseMedia)]
      collaborators_by_media_id := [(1, [(2, COLLAB_SHARE_COUNT)])] }

/-- The payment plan assembled by `open_media` on `openSt`: account 2 is
paid 1000 from the derived reward account, and the caller has been
removed. -/
def openPlanFixture : PaymentPlan :=
  { media := baseMedia, payment_account := 1001, payments := [(2, 1000)] }

/-- A two-node sharing chain for media 5: node 0 (leaf, account 10) has
parent node 1 (root, account 11). -/
def sharingSt : MediaStorage :=
  { initialStorage 0 with
      media_sharings_by_id :=
        [(0, { media_id := 5, parent_id := some 1, address := 10, id := 0 }),
         (1, { media_id := 5, parent_id := none, address := 11, id := 1 })] }

/-- View conditions with `sharing_percent = 10`. -/
def shareInfo : ViewInfo := { baseViewInfo with sharing_percent := 10 }

/-- An update request for media 1 proposing creator 12 and collaborator
map `[(12, 7)]`. -/
def updReq : UpdateMediaRequest :=
  { media_id := 1
    creator_address := 12
    media_name := "n"
    type_ := .Audio
    view_conditions := baseViewInfo
    nft_conditions := baseNft
    royalty := 2
    collabs := [(12, 7)] }

/-- A pending proposal by requester 9 on media 1, needing one approval. -/
def voteProp : UpdateMediaProposal :=
  { media_id := 1
    requester_address := 9
    update_request := updReq
    votes := []
    state := .Pending
    min_approvals := 1
    max_denials := 1
    duration := UPDATE_MEDIA_PROPOSAL_DURATION
    date := 0 }

/-- Storage holding `voteProp` with the one-member community `{2}`. -/
def voteSt : MediaStorage :=
  { initialStorage 0 with
      medias_by_id := [(1, baseMedia)]
      collaborators_by_media_id := [(1, [(2, 10)])]
      proposals_by_key := [({ media_id := 1, requester := 9 }, voteProp)]
      communities_by_proposal_key := [({ media_id := 1, requester := 9 }, [(2, ())])] }

/-- Storage with two collaborators (2 and 3) on media 1 and no pending
proposal. -/
def proposalSt : MediaStorage :=
  { initialStorage 0 with
      medias_by_id := [(1, baseMedia)]
      collaborators_by_media_id := [(1, [(2, 10), (3, 5)])] }

/-- Storage where account 1 holds share 5 and account 2 holds share 7 on
media 1. -/
def fracSt : MediaStorage :=
  { initialStorage 0 with
      collaborators_by_media_id := [(1, [(1, 5), (2, 7)])] }

/-- A proposal whose frozen community is empty (`min_approvals = 0`),
plantable only by hand: the engine refuses to create one. -/
def emptyProp : UpdateMediaProposal := { voteProp with min_approvals := 0 }

/-- Storage holding media 1 with zero collaborators and the hand-planted
`emptyProp` with an empty community. -/
def emptyCollabSt : MediaStorage :=
  { initialStorage 0 with
      medias_by_id := [(1, baseMedia)]
      collaborators_by_media_id := [(1, [])]
      proposals_by_key := [({ media_id := 1, requester := 9 }, emptyProp)]
      communities_by_proposal_key := [({ media_id := 1, requester := 9 }, [])] }

/-! ### Association-list lemmas -/

/-- Looking up the key just inserted yields the inserted value. -/
theorem lookupMap_insertMap_self {K V : Type} [DecidableEq K] (m : Map K V) (k : K) (v : V) :
    lookupMap (insertMap m k v) k = some v := by
  induction m with
  | nil => simp [insertMap, lookupMap]
  | cons kv rest ih =>
      obtain ⟨a, b⟩ := kv
      by_cases h : a = k
      · simp [insertMap, lookupMap, h]
      · simp [insertMap, lookupMap, h, ih]

/-- Inserting one key leaves lookups of other keys unchanged. -/
theorem lookupMap_insertMap_ne {K V : Type} [DecidableEq K] (m : Map K V) (k k' : K) (v : V)
    (h : k' ≠ k) : lookupMap (insertMap m k v) k' = lookupMap m k' := by
  have h' : ¬(k = k') := fun hh => h hh.symm
  induction m with
  | nil => simp [insertMap, lookupMap, h']
  | cons kv rest ih =>
      obtain ⟨a, b⟩ := kv
      by_cases hak : a = k
      · subst hak
        simp [insertMap, lookupMap, h']
      · simp [insertMap, lookupMap, hak, ih]

/-- Erasing the key just inserted equals erasing it from the original map. -/
theorem eraseMap_insertMap {K V : Type} [DecidableEq K] (m : Map K V) (k : K) (v : V) :
    eraseMap (insertMap m k v) k = eraseMap m k := by
  induction m with
  | nil => simp [insertMap, eraseMap]
  | cons kv rest ih =>
      obtain ⟨a, b⟩ := kv
      by_cases h : a = k
      · simp [insertMap, eraseMap, h]
      · simp [insertMap, eraseMap, h, ih]

/-- A key outside a map's key list looks up to `none`. -/
theorem lookupMap_eq_none_of_not_mem {K V : Type} [DecidableEq K] (m : Map K V) (k : K)
    (h : k ∉ keysMap m) : lookupMap m k = none := by
  induction m with
  | nil => simp [lookupMap]
  | cons kv rest ih =>
      obtain ⟨a, b⟩ := kv
      simp only [keysMap, List.map_cons, List.mem_cons] at h
      push_neg at h
      have h1 : ¬(a = k) := fun hh => h.1 hh.symm
      simp [lookupMap, h1, ih (by simpa [keysMap] using h.2)]

/-- A binding's key is in the key list. -/
theorem mem_keysMap_of_mem {K V : Type} (m : Map K V) (a : K) (s : V)
    (h : (a, s) ∈ m) : a ∈ keysMap m :=
  List.mem_map.mpr ⟨(a, s), h, rfl⟩

/-- With unique keys, a key erased from a map looks up to `none`. -/
theorem lookupMap_eraseMap_self {K V : Type} [DecidableEq K] (m : Map K V) (k : K)
    (h : (keysMap m).Nodup) : lookupMap (eraseMap m k) k = none := by
  induction m with
  | nil => simp [eraseMap, lookupMap]
  | cons kv rest ih =>
      obtain ⟨a, b⟩ := kv
      simp only [keysMap, List.map_cons, List.nodup_cons] at h
      by_cases hak : a = k
      · subst hak
        have : a ∉ keysMap rest := by simpa [keysMap] using h.1
        simp [eraseMap, lookupMap_eq_none_of_not_mem _ _ this]
      · simp [eraseMap, lookupMap, hak, ih (by simpa [keysMap] using h.2)]

/-- Membership in the key list after an insert. -/
theorem mem_keysMap_insertMap {K V : Type} [DecidableEq K] (m : Map K V) (k x : K) (v : V) :
    x ∈ keysMap (insertMap m k v) ↔ x ∈ keysMap m ∨ x = k := by
  induction m with
  | nil => simp [insertMap, keysMap]
  | cons kv rest ih =>
      obtain ⟨a, b⟩ := kv
      by_cases h : a = k
      · subst h
        simp [insertMap, keysMap]
        tauto
      · simp only [insertMap]
        rw [if_neg h]
        simp only [keysMap, List.map_cons, List.mem_cons] at ih ⊢
        rw [ih]
        tauto

/-- Insertion preserves key uniqueness. -/
theorem nodup_keysMap_insertMap {K V : Type} [DecidableEq K] (m : Map K V) (k : K) (v : V)
    (h : (keysMap m).Nodup) : (keysMap (insertMap m k v)).Nodup := by
  induction m with
  | nil => simp [insertMap, keysMap]
  | cons kv rest ih =>
      obtain ⟨a, b⟩ := kv
      simp only [keysMap, List.map_cons, List.nodup_cons] at h
      have h1 : a ∉ keysMap rest := by simpa [keysMap] using h.1
      have h2 : (keysMap rest).Nodup := by simpa [keysMap] using h.2
      by_cases hak : a = k
      · subst hak
        have h1' : a ∉ List.map Prod.fst rest := by simpa [keysMap] using h1
        have h2' : (List.map Prod.fst rest).Nodup := by simpa [keysMap] using h2
        simp [insertMap, keysMap, h1', h2']
      · simp only [insertMap]
        rw [if_neg hak]
        simp only [keysMap, List.map_cons, List.nodup_cons]
        constructor
        · intro hmem
          rcases (mem_keysMap_insertMap rest k a v).mp (by simpa [keysMap] using hmem) with h3 | h3
          · exact h1 (by simpa [keysMap] using h3)
          · exact hak h3
        · simpa [keysMap] using ih h2

/-- Looking up the key just bumped: the bucket accumulates. -/
theorem lookupMap_addToMap_self {K : Type} [DecidableEq K] (m : Map K Nat) (k : K) (v : Nat) :
    lookupMap (addToMap m k v) k = some ((lookupMap m k).getD 0 + v) := by
  induction m with
  | nil => simp [addToMap, lookupMap]
  | cons kv rest ih =>
      obtain ⟨a, b⟩ := kv
      by_cases h : a = k
      · simp [addToMap, lookupMap, h]
      · simp [addToMap, lookupMap, h, ih]

/-- Bumping one bucket leaves other lookups unchanged. -/
theorem lookupMap_addToMap_ne {K : Type} [DecidableEq K] (m : Map K Nat) (k k' : K) (v : Nat)
    (h : k' ≠ k) : lookupMap (addToMap m k v) k' = lookupMap m k' := by
  have h' : ¬(k = k') := fun hh => h hh.symm
  induction m with
  | nil => simp [addToMap, lookupMap, h']
  | cons kv rest ih =>
      obtain ⟨a, b⟩ := kv
      by_cases hak : a = k
      · subst hak
        simp [addToMap, lookupMap, h']
      · simp [addToMap, lookupMap, hak, ih]

/-- Membership in the key list after a bump. -/
theorem mem_keysMap_addToMap {K : Type} [DecidableEq K] (m : Map K Nat) (k x : K) (v : Nat) :
    x ∈ keysMap (addToMap m k v) ↔ x ∈ keysMap m ∨ x = k := by
  induction m with
  | nil => simp [addToMap, keysMap]
  | cons kv rest ih =>
      obtain ⟨a, b⟩ := kv
      by_cases h : a = k
      · subst h
        simp [addToMap, keysMap]
        tauto
      · simp only [addToMap]
        rw [if_neg h]
        simp only [keysMap, List.map_cons, List.mem_cons] at ih ⊢
        rw [ih]
        tauto

/-- Bumping preserves key uniqueness. -/
theorem nodup_keysMap_addToMap {K : Type} [DecidableEq K] (m : Map K Nat) (k : K) (v : Nat)
    (h : (keysMap m).Nodup) : (keysMap (addToMap m k v)).Nodup := by
  induction m with
  | nil => simp [addToMap, keysMap]
  | cons kv rest ih =>
      obtain ⟨a, b⟩ := kv
      simp only [keysMap, List.map_cons, List.nodup_cons] at h
      have h1 : a ∉ keysMap rest := by simpa [keysMap] using h.1
      have h2 : (keysMap rest).Nodup := by simpa [keysMap] using h.2
      by_cases hak : a = k
      · subst hak
        have h1' : a ∉ List.map Prod.fst rest := by simpa [keysMap] using h1
        have h2' : (List.map Prod.fst rest).Nodup := by simpa [keysMap] using h2
        simp [addToMap, keysMap, h1', h2']
      · simp only [addToMap]
        rw [if_neg hak]
        simp only [keysMap, List.map_cons, List.nodup_cons]
        constructor
        · intro hmem
          rcases (mem_keysMap_addToMap rest k a v).mp (by simpa [keysMap] using hmem) with h3 | h3
          · exact h1 (by simpa [keysMap] using h3)
          · exact hak h3
        · simpa [keysMap] using ih h2

/-! ### `distribute_amount` lemmas -/

/-- One step of the `distribute_amount` fold. -/
theorem distribute_amount_cons (amount : Balance) (a : AccountId) (s : CollabShare)
    (rest : Map AccountId CollabShare) (into : Map AccountId Balance) :
    distribute_amount amount ((a, s) :: rest) into
      = distribute_amount amount rest (addToMap into a (amount * (s / COLLAB_SHARE_COUNT))) := rfl

/-- Accounts not listed among the receivers keep their bucket untouched. -/
theorem lookupMap_distribute_amount_not_mem (amount : Balance)
    (receivers : Map AccountId CollabShare) (into : Map AccountId Balance) (a : AccountId)
    (h : a ∉ keysMap receivers) :
    lookupMap (distribute_amount amount receivers into) a = lookupMap into a := by
  induction receivers generalizing into with
  | nil => rfl
  | cons kv rest ih =>
      obtain ⟨k, s⟩ := kv
      simp only [keysMap, List.map_cons, List.mem_cons] at h
      push_neg at h
      rw [distribute_amount_cons, ih _ (by simpa [keysMap] using h.2),
        lookupMap_addToMap_ne _ _ _ _ h.1]

/-- A listed account's bucket receives exactly
`amount * (share / COLLAB_SHARE_COUNT)` on top of its prior content. -/
theorem lookupMap_distribute_amount_mem (amount : Balance)
    (receivers : Map AccountId CollabShare) (into : Map AccountId Balance)
    (a : AccountId) (s : CollabShare)
    (hmem : (a, s) ∈ receivers) (hnd : (keysMap receivers).Nodup) :
    lookupMap (distribute_amount amount receivers into) a
      = some ((lookupMap into a).getD 0 + amount * (s / COLLAB_SHARE_COUNT)) := by
  induction receivers generalizing into with
  | nil => cases hmem
  | cons kv rest ih =>
      obtain ⟨k, sh⟩ := kv
      simp only [keysMap, List.map_cons, List.nodup_cons] at hnd
      have hk : k ∉ keysMap rest := by simpa [keysMap] using hnd.1
      rcases List.mem_cons.mp hmem with hh | hh
      · obtain ⟨rfl, rfl⟩ : a = k ∧ s = sh := by
          have := hh
          simp only [Prod.mk.injEq] at this
          exact this
        rw [distribute_amount_cons,
          lookupMap_distribute_amount_not_mem _ _ _ _ hk,
          lookupMap_addToMap_self]
      · have hmemk : a ∈ keysMap rest := mem_keysMap_of_mem rest a s hh
        have hne : a ≠ k := fun hh2 => hk (hh2 ▸ hmemk)
        rw [distribute_amount_cons, ih _ hh (by simpa [keysMap] using hnd.2),
          lookupMap_addToMap_ne _ _ _ _ hne]

/-! ### Insert-fold lemmas (shared by the sharing-proportion and
fractionalisation folds) -/

/-- A key not produced by the fold keeps its original lookup. -/
theorem lookupMap_foldl_insert_not_mem {α K V : Type} [DecidableEq K]
    (key : α → K) (val : α → V) (l : List α) (m0 : Map K V) (a : K)
    (h : a ∉ l.map key) :
    lookupMap (l.foldl (fun m x => insertMap m (key x) (val x)) m0) a = lookupMap m0 a := by
  induction l generalizing m0 with
  | nil => rfl
  | cons x rest ih =>
      simp only [List.map_cons, List.mem_cons] at h
      push_neg at h
      have h1 : a ≠ key x := h.1
      rw [List.foldl_cons, ih _ h.2, lookupMap_insertMap_ne _ _ _ _ h1]

/-- With pairwise-distinct keys, each fold element ends up bound to its
own value. -/
theorem lookupMap_foldl_insert_mem {α K V : Type} [DecidableEq K]
    (key : α → K) (val : α → V) (l : List α) (m0 : Map K V) (x : α)
    (hmem : x ∈ l) (hnd : (l.map key).Nodup) :
    lookupMap (l.foldl (fun m y => insertMap m (key y) (val y)) m0) (key x) = some (val x) := by
  induction l generalizing m0 with
  | nil => cases hmem
  | cons y rest ih =>
      simp only [List.map_cons, List.nodup_cons] at hnd
      rcases List.mem_cons.mp hmem with hh | hh
      · subst hh
        rw [List.foldl_cons, lookupMap_foldl_insert_not_mem _ _ _ _ _ hnd.1,
          lookupMap_insertMap_self]
      · rw [List.foldl_cons, ih _ hh hnd.2]

/-- The fold only ever inserts, so key uniqueness is preserved. -/
theorem nodup_keysMap_foldl_insert {α K V : Type} [DecidableEq K]
    (key : α → K) (val : α → V) (l : List α) (m0 : Map K V)
    (h : (keysMap m0).Nodup) :
    (keysMap (l.foldl (fun m x => insertMap m (key x) (val x)) m0)).Nodup := by
  induction l generalizing m0 with
  | nil => exact h
  | cons x rest ih =>
      rw [List.foldl_cons]
      exact ih _ (nodup_keysMap_insertMap _ _ _ h)

/-- `distribute_amount` only bumps buckets, so key uniqueness is
preserved. -/
theorem nodup_keysMap_distribute_amount (amount : Balance)
    (receivers : Map AccountId CollabShare) (into : Map AccountId Balance)
    (h : (keysMap into).Nodup) :
    (keysMap (distribute_amount amount receivers into)).Nodup := by
  induction receivers generalizing into with
  | nil => exact h
  | cons kv rest ih =>
      obtain ⟨k, s⟩ := kv
      rw [distribute_amount_cons]
      exact ih _ (nodup_keysMap_addToMap _ _ _ h)

/-- Lookup through the unit-valued community projection of a collaborator
map. -/
theorem lookupMap_map_unit {V : Type} (m : Map AccountId V) (x : AccountId) :
    lookupMap (m.map fun kv => (kv.1, ())) x = (lookupMap m x).map (fun _ => ()) := by
  induction m with
  | nil => rfl
  | cons kv rest ih =>
      obtain ⟨a, b⟩ := kv
      by_cases h : a = x
      · simp [lookupMap, h]
      · simp [lookupMap, h, ih]

/-- The community snapshot contains exactly the collaborator accounts. -/
theorem containsMap_map_unit {V : Type} (m : Map AccountId V) (x : AccountId) :
    containsMap (m.map fun kv => (kv.1, ())) x = containsMap m x := by
  simp [containsMap, lookupMap_map_unit]

/-! ### Claim theorems -/

/-- C1: contrary to the claim that every public operation returns
synchronously with `Ok` or a listed error, `open_media` ends in
`todo!("send reward to pod-media")`: it panics on the concrete free-entry
input (price 0), and no input whatsoever can make it return `Ok`. -/
theorem open_media_always_panics :
    open_media testEnv freeSt 0 { media_id := 1, sharing_id := none } = RunResult.panic
    ∧ ∀ (env : Env) (st : MediaStorage) (fuel : Nat) (req : OpenMediaRequest),
        (open_media env st fuel req = RunResult.ok) = False := by
  refine ⟨rfl, ?_⟩
  intro env st fuel req
  simp only [eq_iff_iff, iff_false]
  intro h
  unfold open_media at h
  cases hplan : open_media_plan env st fuel req <;> rw [hplan] at h
  case noPayment m => simp at h
  case err e => simp at h
  case diverge => simp at h
  case plan p =>
      cases hd : dispatch_payments env p <;> simp [hd] at h

/-- C6: the `while depth > 0` loop of `get_sharing_chain` never
terminates when the start id refers to no stored sharing node: the loop
body maps the state to itself, so the walk returns nothing for any amount
of fuel, already from the empty sharing index at start id 0, depth 3. -/
theorem get_sharing_chain_stuck_on_missing_id :
    chainStepF [] { sharing_id := 0, depth := 3, accounts := [] }
        = ChainStep.more { sharing_id := 0, depth := 3, accounts := [] }
    ∧ (∀ fuel : Nat, chainRun [] fuel { sharing_id := 0, depth := 3, accounts := [] } = none)
    ∧ (∀ fuel : Nat, get_sharing_chain (initialStorage 0) 0 3 fuel = none) := by
  have hrun : ∀ fuel : Nat,
      chainRun [] fuel { sharing_id := 0, depth := 3, accounts := [] } = none := by
    intro fuel
    induction fuel with
    | zero => rfl
    | succ n ih => simpa [chainRun, chainStepF, lookupMap] using ih
  exact ⟨rfl, hrun, fun fuel => hrun fuel⟩

/-- C2 counterexample: `tip_media` performs no self-payment removal — on
`tipSt` the caller (account 1, the sole collaborator) is dispatched a
transfer of the full 1000-unit tip. -/
theorem tip_media_pays_the_caller :
    tip_media testEnv tipSt { media_id := 1, amount := 1000, token := 50 }
      = Except.ok [(1, 1000)]
    ∧ testEnv.caller = 1 := ⟨rfl, rfl⟩

/-- C8 counterexample: fractionalisation inserts, rather than additively
merges, the new shares: account 2 held share 7, account 1 fractionalises
its share 5 with ratio 2 towards account 2, and account 2 ends with
exactly `5 * 2 = 10` — not `7 + 10`. -/
theorem fractionalise_replaces_existing_share :
    fractionalise_media_collab 1 fracSt { media_id := 1, sharings := [(2, 2)] }
      = Except.ok { fracSt with collaborators_by_media_id := [(1, [(2, 10)])] } := by
  rfl

/-- C9 counterexample: on content with zero collaborators no proposal can
even be created (`RequiresCollaborator`), and a vote on a hand-planted
proposal with an empty frozen community is rejected with `VoteNotAllowed`
for either ballot value — nothing is ever applied. -/
theorem zero_collab_first_vote_rejected :
    create_update_media_proposal 7 0 emptyCollabSt updReq
        = Except.error Error.RequiresCollaborator
    ∧ vote_media_update_proposal 7 0 emptyCollabSt
        { media_id := 1, requester_address := 9, vote := true }
        = Except.error Error.VoteNotAllowed
    ∧ vote_media_update_proposal 7 0 emptyCollabSt
        { media_id := 1, requester_address := 9, vote := false }
        = Except.error Error.VoteNotAllowed := ⟨rfl, rfl, rfl⟩

/-- C5: `distribute_amount` adds exactly
`amount * (share / COLLAB_SHARE_COUNT)` to the listed account's bucket on
top of its prior content, `COLLAB_SHARE_COUNT = 10 ^ 9`, and any share
strictly below the constant contributes exactly 0. -/
theorem distribute_amount_adds_truncated_contribution (amount : Balance)
    (receivers : Map AccountId CollabShare) (into : Map AccountId Balance)
    (a : AccountId) (s : CollabShare)
    (hmem : (a, s) ∈ receivers) (hnd : (keysMap receivers).Nodup) :
    COLLAB_SHARE_COUNT = 10 ^ 9
    ∧ lookupMap (distribute_amount amount receivers into) a
        = some ((lookupMap into a).getD 0 + amount * (s / COLLAB_SHARE_COUNT))
    ∧ (s < COLLAB_SHARE_COUNT →
        lookupMap (distribute_amount amount receivers into) a
          = some ((lookupMap into a).getD 0)) := by
  refine ⟨by norm_num [COLLAB_SHARE_COUNT],
    lookupMap_distribute_amount_mem amount receivers into a s hmem hnd, ?_⟩
  intro hs
  rw [lookupMap_distribute_amount_mem amount receivers into a s hmem hnd,
    Nat.div_eq_of_lt hs]
  simp

/-- C5 witness: account 1 with share 5 (below the unit) receives nothing
from distributing 100, while the hypotheses hold at this concrete input. -/
theorem distribute_amount_adds_truncated_contribution_witness :
    ((1, 5) ∈ ([(1, 5), (2, 2000000000)] : Map AccountId CollabShare))
    ∧ (keysMap ([(1, 5), (2, 2000000000)] : Map AccountId CollabShare)).Nodup
    ∧ (COLLAB_SHARE_COUNT = 10 ^ 9
       ∧ lookupMap (distribute_amount 100 [(1, 5), (2, 2000000000)] []) 1
           = some ((lookupMap ([] : Map AccountId Balance) 1).getD 0 + 100 * (5 / COLLAB_SHARE_COUNT))
       ∧ (5 < COLLAB_SHARE_COUNT →
           lookupMap (distribute_amount 100 [(1, 5), (2, 2000000000)] []) 1
             = some ((lookupMap ([] : Map AccountId Balance) 1).getD 0))) :=
  ⟨by decide, by decide,
    distribute_amount_adds_truncated_contribution 100 [(1, 5), (2, 2000000000)] [] 1 5
      (by decide) (by decide)⟩

/-- The balance map built by `sharing_proportions_of_chain` starts from
the empty map and only inserts, so its keys are unique. -/
theorem nodup_keysMap_sharing_proportions (info : ViewInfo) (price : Balance)
    (chain : List AccountId) :
    (keysMap (sharing_proportions_of_chain info price chain).2).Nodup := by
  by_cases hpos : info.sharing_percent > 0
  · have heq : (sharing_proportions_of_chain info price chain).2
        = chain.enum.foldl
            (fun m iv => insertMap m iv.2
              ((chain.length - iv.1) / get_sharing_division_factor chain.length
                * (price * info.sharing_percent / 100))) [] := by
      simp only [sharing_proportions_of_chain]
      rw [if_pos hpos]
    rw [heq]
    exact nodup_keysMap_foldl_insert Prod.snd _ chain.enum [] (by simp [keysMap])
  · have heq : (sharing_proportions_of_chain info price chain).2 = [] := by
      simp only [sharing_proportions_of_chain]
      rw [if_neg hpos]
    rw [heq]
    simp [keysMap]

/-- C3: for an `n`-member chain, `shared_total = price * percent / 100`,
the `i`-th member (leaf-indexed) is assigned
`(n - i) / triangular(n) * shared_total` — division first — hence 0
whenever the weight is below `triangular(n)`; and on the concrete 2-node
chain with `sharing_percent = 10`, price 1000: `shared_total = 100` and
both members receive 0. -/
theorem sharing_proportions_divide_before_multiply (info : ViewInfo) (price : Balance)
    (chain : List AccountId) (hnd : chain.Nodup) (hpos : 0 < info.sharing_percent) :
    (sharing_proportions_of_chain info price chain).1 = price * info.sharing_percent / 100
    ∧ (∀ iv ∈ chain.enum,
        lookupMap (sharing_proportions_of_chain info price chain).2 iv.2
          = some ((chain.length - iv.1) / get_sharing_division_factor chain.length
              * (price * info.sharing_percent / 100)))
    ∧ (∀ iv ∈ chain.enum,
        chain.length - iv.1 < get_sharing_division_factor chain.length →
          lookupMap (sharing_proportions_of_chain info price chain).2 iv.2 = some 0)
    ∧ get_sharing_proportions sharingSt shareInfo 1000 0 3 4
        = some (100, [(10, 0), (11, 0)]) := by
  have hnd2 : (chain.enum.map Prod.snd).Nodup := by
    rw [List.enum_map_snd]
    exact hnd
  have heq : (sharing_proportions_of_chain info price chain).2
      = chain.enum.foldl
          (fun m iv => insertMap m iv.2
            ((chain.length - iv.1) / get_sharing_division_factor chain.length
              * (price * info.sharing_percent / 100))) [] := by
    simp only [sharing_proportions_of_chain]
    rw [if_pos hpos]
  have hmain : ∀ iv ∈ chain.enum,
      lookupMap (sharing_proportions_of_chain info price chain).2 iv.2
        = some ((chain.length - iv.1) / get_sharing_division_factor chain.length
            * (price * info.sharing_percent / 100)) := by
    intro iv hmem
    rw [heq]
    exact lookupMap_foldl_insert_mem Prod.snd
      (fun iv => (chain.length - iv.1) / get_sharing_division_factor chain.length
        * (price * info.sharing_percent / 100)) chain.enum [] iv hmem hnd2
  refine ⟨rfl, hmain, ?_, by rfl⟩
  intro iv hmem hlt
  rw [hmain iv hmem, Nat.div_eq_of_lt hlt]
  simp

/-- C3 witness: the hypotheses and conclusion of the truncation theorem at
the concrete 2-node chain `[10, 11]`. -/
theorem sharing_proportions_divide_before_multiply_witness :
    ([10, 11] : List AccountId).Nodup
    ∧ 0 < shareInfo.sharing_percent
    ∧ ((sharing_proportions_of_chain shareInfo 1000 [10, 11]).1
          = 1000 * shareInfo.sharing_percent / 100
       ∧ (∀ iv ∈ ([10, 11] : List AccountId).enum,
            lookupMap (sharing_proportions_of_chain shareInfo 1000 [10, 11]).2 iv.2
              = some ((([10, 11] : List AccountId).length - iv.1)
                  / get_sharing_division_factor ([10, 11] : List AccountId).length
                  * (1000 * shareInfo.sharing_percent / 100)))
       ∧ (∀ iv ∈ ([10, 11] : List AccountId).enum,
            ([10, 11] : List AccountId).length - iv.1
                < get_sharing_division_factor ([10, 11] : List AccountId).length →
              lookupMap (sharing_proportions_of_chain shareInfo 1000 [10, 11]).2 iv.2 = some 0)
       ∧ get_sharing_proportions sharingSt shareInfo 1000 0 3 4
           = some (100, [(10, 0), (11, 0)])) :=
  ⟨by decide, by decide,
    sharing_proportions_divide_before_multiply shareInfo 1000 [10, 11] (by decide) (by decide)⟩

/-- C2 (amended): whenever `open_media` assembles a payment plan, the
`payments.take(&caller)` removal guarantees the caller's address is absent
from the dispatched payout map.  (`tip_media` performs no such removal —
see the counterexample.) -/
theorem open_media_plan_excludes_caller (env : Env) (st : MediaStorage) (fuel : Nat)
    (req : OpenMediaRequest) (p : PaymentPlan)
    (h : open_media_plan env st fuel req = PlanResult.plan p) :
    lookupMap p.payments env.caller = none := by
  unfold open_media_plan at h
  cases hm : lookupMap st.medias_by_id req.media_id with
  | none => rw [hm] at h; cases h
  | some media =>
      rw [hm] at h
      dsimp only at h
      by_cases hpos :
          entry_gate env env.caller media.view_conditions.token_entry
            media.view_conditions.price > 0
      · rw [if_pos hpos] at h
        set account_balance : AccountId × Balance :=
          (if env.erc20_balance media.view_conditions.viewing_token
                (env.reward_account env.caller)
              ≥ entry_gate env env.caller media.view_conditions.token_entry
                  media.view_conditions.price then
            (env.reward_account env.caller,
              env.erc20_balance media.view_conditions.viewing_token
                (env.reward_account env.caller))
          else
            (env.caller, env.erc20_balance media.view_conditions.viewing_token env.caller))
          with hab
        by_cases hbal :
            account_balance.2 < entry_gate env env.caller media.view_conditions.token_entry
              media.view_conditions.price
        · rw [if_pos hbal] at h
          cases h
        · rw [if_neg hbal] at h
          cases hsh : (match req.sharing_id with
              | some sid =>
                  get_sharing_proportions st media.view_conditions
                    (entry_gate env env.caller media.view_conditions.token_entry
                      media.view_conditions.price) sid GET_SHARING_PROPORTIONS_DEPTH fuel
              | none => some (0, ([] : Map AccountId Balance))) with
          | none => rw [hsh] at h; cases h
          | some shared_payments =>
              rw [hsh] at h
              have hndsp : (keysMap shared_payments.2).Nodup := by
                cases hsid : req.sharing_id with
                | none =>
                    rw [hsid] at hsh
                    cases hsh
                    simp [keysMap]
                | some sid =>
                    rw [hsid] at hsh
                    simp only [get_sharing_proportions, Option.map_eq_some'] at hsh
                    obtain ⟨chain, _, hsp⟩ := hsh
                    rw [← hsp]
                    exact nodup_keysMap_sharing_proportions _ _ _
              cases hcol : lookupMap st.collaborators_by_media_id req.media_id with
              | none => rw [hcol] at h; cases h
              | some collabs =>
                  rw [hcol] at h
                  dsimp only at h
                  cases h
                  have hnd2 : (keysMap (get_owners_profit
                      (entry_gate env env.caller media.view_conditions.token_entry
                          media.view_conditions.price
                        - shared_payments.1
                        - (get_royalties
                            (entry_gate env env.caller media.view_conditions.token_entry
                              media.view_conditions.price)
                            media.royalty collabs shared_payments.2).1)
                      collabs
                      (get_royalties
                        (entry_gate env env.caller media.view_conditions.token_entry
                          media.view_conditions.price)
                        media.royalty collabs shared_payments.2).2)).Nodup := by
                    exact nodup_keysMap_distribute_amount _ _ _
                      (nodup_keysMap_distribute_amount _ _ _ hndsp)
                  exact lookupMap_eraseMap_self _ _ hnd2
      · rw [if_neg hpos] at h
        cases h

/-- C2 witness: on `openSt` the plan is assembled concretely and the
caller (account 1) is absent from the dispatched payout map. -/
theorem open_media_plan_excludes_caller_witness :
    open_media_plan testEnv openSt 0 { media_id := 1, sharing_id := none }
        = PlanResult.plan openPlanFixture
    ∧ lookupMap openPlanFixture.payments testEnv.caller = none :=
  ⟨rfl, open_media_plan_excludes_caller testEnv openSt 0
    { media_id := 1, sharing_id := none } openPlanFixture rfl⟩

/-- C4: with the proposal and its frozen community present, the caller a
community member, the media record stored, `max_denials = 1` and
`min_approvals` equal to the community size `N`: after recording the vote,
(1) expiry or any no-vote discards the proposal with no other state
change; (2) otherwise, yes-votes reaching `N` applies the proposed fields
and collaborator map and discards the proposal; (3) otherwise the proposal
stays pending with the vote recorded. -/
theorem vote_media_update_proposal_resolution
    (caller : AccountId) (now : Nat) (st : MediaStorage) (vote : UpdateMediaVote)
    (p : UpdateMediaProposal) (c : Map AccountId Unit) (m : Media)
    (hp : lookupMap st.proposals_by_key
        { media_id := vote.media_id, requester := vote.requester_address } = some p)
    (hc : lookupMap st.communities_by_proposal_key
        { media_id := vote.media_id, requester := vote.requester_address } = some c)
    (hin : containsMap c caller = true)
    (hm : lookupMap st.medias_by_id vote.media_id = some m)
    (hmax : p.max_denials = 1)
    (hmin : p.min_approvals = c.length) :
    ((is_expired p now = true ∨ 1 ≤ (count_votes (insertMap p.votes caller vote.vote)).2) →
      vote_media_update_proposal caller now st vote
        = Except.ok { st with
            proposals_by_key := eraseMap st.proposals_by_key { media_id := vote.media_id, requester := vote.requester_address }
            communities_by_proposal_key := eraseMap st.communities_by_proposal_key { media_id := vote.media_id, requester := vote.requester_address } })
    ∧ (is_expired p now = false → (count_votes (insertMap p.votes caller vote.vote)).2 = 0 →
        c.length ≤ (count_votes (insertMap p.votes caller vote.vote)).1 →
      vote_media_update_proposal caller now st vote
        = Except.ok { st with
            proposals_by_key := eraseMap st.proposals_by_key { media_id := vote.media_id, requester := vote.requester_address }
            communities_by_proposal_key := eraseMap st.communities_by_proposal_key { media_id := vote.media_id, requester := vote.requester_address }
            collaborators_by_media_id := insertMap st.collaborators_by_media_id vote.media_id p.update_request.collabs
            medias_by_id := insertMap st.medias_by_id vote.media_id { m with
              creator := p.update_request.creator_address
              media_name := p.update_request.media_name
              nft_conditions := p.update_request.nft_conditions
              royalty := p.update_request.royalty
              type_ := p.update_request.type_
              view_conditions := p.update_request.view_conditions } })
    ∧ (is_expired p now = false → (count_votes (insertMap p.votes caller vote.vote)).2 = 0 →
        (count_votes (insertMap p.votes caller vote.vote)).1 < c.length →
      vote_media_update_proposal caller now st vote
        = Except.ok { st with
            proposals_by_key := insertMap st.proposals_by_key { media_id := vote.media_id, requester := vote.requester_address } { p with votes := insertMap p.votes caller vote.vote } }) := by
  unfold vote_media_update_proposal
  dsimp only
  rw [hp, hc]
  dsimp only
  rw [hin]
  refine ⟨?_, ?_, ?_⟩
  · intro hcond
    have hguard : (is_expired { p with votes := insertMap p.votes caller vote.vote } now
        || decide ((count_votes (insertMap p.votes caller vote.vote)).2
            ≥ { p with votes := insertMap p.votes caller vote.vote }.max_denials)) = true := by
      rcases hcond with h1 | h1
      · simp only [is_expired] at h1 ⊢
        simp [h1]
      · simp [is_expired, hmax, h1]
    rw [if_pos rfl]
    try dsimp only
    rw [if_pos hguard, eraseMap_insertMap]
  · intro hexp hno hyes
    have hguard : (is_expired { p with votes := insertMap p.votes caller vote.vote } now
        || decide ((count_votes (insertMap p.votes caller vote.vote)).2
            ≥ { p with votes := insertMap p.votes caller vote.vote }.max_denials)) = false := by
      simp only [is_expired] at hexp ⊢
      simp [hexp, hmax, hno]
    have hguard2 : (count_votes (insertMap p.votes caller vote.vote)).1
        ≥ { p with votes := insertMap p.votes caller vote.vote }.min_approvals := by
      simpa [hmin] using hyes
    rw [if_pos rfl]
    try dsimp only
    rw [if_neg (by simp [hguard]), if_pos hguard2]
    try dsimp only
    rw [hm]
    try dsimp only
    rw [eraseMap_insertMap]
  · intro hexp hno hlt
    have hguard : (is_expired { p with votes := insertMap p.votes caller vote.vote } now
        || decide ((count_votes (insertMap p.votes caller vote.vote)).2
            ≥ { p with votes := insertMap p.votes caller vote.vote }.max_denials)) = false := by
      simp only [is_expired] at hexp ⊢
      simp [hexp, hmax, hno]
    have hguard2 : ¬ ((count_votes (insertMap p.votes caller vote.vote)).1
        ≥ { p with votes := insertMap p.votes caller vote.vote }.min_approvals) := by
      simp only [ge_iff_le, not_le]
      simpa [hmin] using hlt
    rw [if_pos rfl]
    try dsimp only
    rw [if_neg (by simp [hguard]), if_neg hguard2]

/-- C4 witness: on `voteSt` (one-member community `{2}`), member 2's
yes-vote at time 5 applies the proposal: fields and collaborators are
replaced and the proposal is discarded. -/
theorem vote_media_update_proposal_resolution_witness :
    lookupMap voteSt.proposals_by_key { media_id := 1, requester := 9 } = some voteProp
    ∧ vote_media_update_proposal 2 5 voteSt { media_id := 1, requester_address := 9, vote := true }
        = Except.ok { voteSt with
            proposals_by_key := eraseMap voteSt.proposals_by_key { media_id := 1, requester := 9 }
            communities_by_proposal_key := eraseMap voteSt.communities_by_proposal_key { media_id := 1, requester := 9 }
            collaborators_by_media_id := insertMap voteSt.collaborators_by_media_id 1 voteProp.update_request.collabs
            medias_by_id := insertMap voteSt.medias_by_id 1 { baseMedia with
              creator := voteProp.update_request.creator_address
              media_name := voteProp.update_request.media_name
              nft_conditions := voteProp.update_request.nft_conditions
              royalty := voteProp.update_request.royalty
              type_ := voteProp.update_request.type_
              view_conditions := voteProp.update_request.view_conditions } } :=
  ⟨by decide,
    (vote_media_update_proposal_resolution 2 5 voteSt
        { media_id := 1, requester_address := 9, vote := true } voteProp [(2, ())] baseMedia
        (by decide) (by decide) (by decide) (by decide) (by decide) (by decide)).2.1
      (by decide) (by decide) (by decide)⟩

/-- C7: creating a proposal and then receiving one denying vote from a
community member removes the proposal and its community snapshot —
subsequent lookups return `none` — and leaves the media record and the
collaborator map exactly as before. -/
theorem create_then_deny_removes_proposal
    (requester voter : AccountId) (now now2 : Nat) (st : MediaStorage)
    (request : UpdateMediaRequest) (collaborators : Map AccountId CollabShare) (media : Media)
    (hcol : lookupMap st.collaborators_by_media_id request.media_id = some collaborators)
    (hreq : containsMap collaborators requester = true)
    (hmed : lookupMap st.medias_by_id request.media_id = some media)
    (hid : media.id = request.media_id)
    (hvoter : containsMap collaborators voter = true)
    (hndp : (keysMap st.proposals_by_key).Nodup)
    (hndc : (keysMap st.communities_by_proposal_key).Nodup) :
    Except.bind (create_update_media_proposal requester now st request)
        (fun st1 => vote_media_update_proposal voter now2 st1
          { media_id := request.media_id, requester_address := requester, vote := false })
      = Except.ok { st with
          proposals_by_key := eraseMap st.proposals_by_key { media_id := request.media_id, requester := requester }
          communities_by_proposal_key := eraseMap st.communities_by_proposal_key { media_id := request.media_id, requester := requester } }
    ∧ lookupMap (eraseMap st.proposals_by_key { media_id := request.media_id, requester := requester })
        { media_id := request.media_id, requester := requester } = none
    ∧ lookupMap (eraseMap st.communities_by_proposal_key { media_id := request.media_id, requester := requester })
        { media_id := request.media_id, requester := requester } = none := by
  refine ⟨?_, lookupMap_eraseMap_self _ _ hndp, lookupMap_eraseMap_self _ _ hndc⟩
  unfold create_update_media_proposal
  dsimp only
  rw [hcol]
  dsimp only
  rw [hreq, if_pos rfl, hmed]
  dsimp only
  rw [hid]
  dsimp only [Except.bind]
  unfold vote_media_update_proposal
  dsimp only
  rw [lookupMap_insertMap_self, lookupMap_insertMap_self]
  dsimp only
  rw [containsMap_map_unit collaborators voter, hvoter, if_pos rfl]
  dsimp only [insertMap]
  have hcount : count_votes [(voter, false)] = (0, 1) := by
    simp [count_votes]
  rw [hcount]
  dsimp only
  rw [if_pos (by simp)]
  rw [eraseMap_insertMap, eraseMap_insertMap, eraseMap_insertMap]

/-- C7 witness: on `proposalSt`, collaborator 2 proposes and collaborator
3 denies; the proposal disappears and media/collaborators are untouched. -/
theorem create_then_deny_removes_proposal_witness :
    containsMap [(2, 10), (3, 5)] 2 = true
    ∧ (Except.bind (create_update_media_proposal 2 0 proposalSt updReq)
          (fun st1 => vote_media_update_proposal 3 5 st1
            { media_id := 1, requester_address := 2, vote := false })
        = Except.ok { proposalSt with
            proposals_by_key := eraseMap proposalSt.proposals_by_key { media_id := 1, requester := 2 }
            communities_by_proposal_key := eraseMap proposalSt.communities_by_proposal_key { media_id := 1, requester := 2 } }
      ∧ lookupMap (eraseMap proposalSt.proposals_by_key { media_id := 1, requester := 2 })
          { media_id := 1, requester := 2 } = none
      ∧ lookupMap (eraseMap proposalSt.communities_by_proposal_key { media_id := 1, requester := 2 })
          { media_id := 1, requester := 2 } = none) :=
  ⟨by decide,
    create_then_deny_removes_proposal 2 3 0 5 proposalSt updReq [(2, 10), (3, 5)] baseMedia
      (by decide) (by decide) (by decide) (by decide) (by decide) (by decide) (by decide)⟩

/-- When no product overflows, the fractionalisation loop is the pure
insert-fold of `original_share * ratio` over the requested splits. -/
theorem fractionalise_fold_ok (cur : CollabShare) (l : List (AccountId × CollabShare))
    (m0 : Map AccountId CollabShare) (hov : ∀ q ∈ l, cur * q.2 < 2 ^ 128) :
    fractionalise_fold cur m0 l
      = Except.ok (l.foldl (fun m q => insertMap m q.1 (cur * q.2)) m0) := by
  induction l generalizing m0 with
  | nil => rfl
  | cons q rest ih =>
      obtain ⟨addr, share⟩ := q
      have h1 : cur * share < 2 ^ 128 := hov (addr, share) (List.mem_cons_self _ _)
      have hcm : checked_mul cur share = some (cur * share) := by
        unfold checked_mul
        rw [if_pos h1]
      show (match checked_mul cur share with
        | none => Except.error Error.Overflow
        | some v => fractionalise_fold cur (insertMap m0 addr v) rest) = _
      rw [hcm]
      dsimp only
      rw [List.foldl_cons]
      exact ih _ (fun q hq => hov q (List.mem_cons_of_mem _ hq))

/-- C8 (amended): `fractionalise_media_collab` fails with
`RequiresCollaborator` when the caller has no share entry; otherwise it
removes the caller's entry and, for each `(address, ratio)` in the
request, inserts `original_share * ratio` as that address's entry —
replacing (not adding to) any share the address already held — with no
bound on the ratios. -/
theorem fractionalise_media_collab_replaces
    (caller : AccountId) (st : MediaStorage) (request : FractionaliseCollabRequest)
    (cs : Map AccountId CollabShare)
    (hcs : lookupMap st.collaborators_by_media_id request.media_id = some cs) :
    (lookupMap cs caller = none →
      fractionalise_media_collab caller st request = Except.error Error.RequiresCollaborator)
    ∧ ∀ cur : CollabShare, lookupMap cs caller = some cur →
        (∀ q ∈ request.sharings, cur * q.2 < 2 ^ 128) →
        fractionalise_media_collab caller st request
          = Except.ok { st with collaborators_by_media_id := (
              insertMap st.collaborators_by_media_id request.media_id
                (request.sharings.foldl (fun m q => insertMap m q.1 (cur * q.2))
                  (eraseMap cs caller))) }
        ∧ ((keysMap request.sharings).Nodup → ∀ q ∈ request.sharings,
            lookupMap (request.sharings.foldl (fun m q => insertMap m q.1 (cur * q.2))
                (eraseMap cs caller)) q.1
              = some (cur * q.2))
        ∧ ((keysMap cs).Nodup → caller ∉ keysMap request.sharings →
            lookupMap (request.sharings.foldl (fun m q => insertMap m q.1 (cur * q.2))
                (eraseMap cs caller)) caller
              = none) := by
  constructor
  · intro hnone
    unfold fractionalise_media_collab
    rw [hcs]
    dsimp only
    rw [hnone]
  · intro cur hsome hov
    refine ⟨?_, ?_, ?_⟩
    · unfold fractionalise_media_collab
      rw [hcs]
      dsimp only
      rw [hsome]
      dsimp only
      rw [fractionalise_fold_ok cur request.sharings (eraseMap cs caller) hov]
    · intro hnd q hq
      have hnd2 : (request.sharings.map Prod.fst).Nodup := by simpa [keysMap] using hnd
      exact lookupMap_foldl_insert_mem Prod.fst (fun q => cur * q.2)
        request.sharings (eraseMap cs caller) q hq hnd2
    · intro hndcs hnmem
      rw [lookupMap_foldl_insert_not_mem Prod.fst (fun q => cur * q.2)
        request.sharings (eraseMap cs caller) caller (by simpa [keysMap] using hnmem)]
      exact lookupMap_eraseMap_self _ _ hndcs

/-- C8 witness: on `fracSt`, caller 1 (share 5) splits with ratio 2 to
account 2; account 2's prior share 7 is replaced by `5 * 2 = 10`, and
caller 1's entry is gone. -/
theorem fractionalise_media_collab_replaces_witness :
    lookupMap fracSt.collaborators_by_media_id 1 = some [(1, 5), (2, 7)]
    ∧ (fractionalise_media_collab 1 fracSt { media_id := 1, sharings := [(2, 2)] }
          = Except.ok { fracSt with collaborators_by_media_id := (
              insertMap fracSt.collaborators_by_media_id 1
                (([(2, 2)] : Map AccountId CollabShare).foldl
                  (fun m q => insertMap m q.1 (5 * q.2))
                  (eraseMap [(1, 5), (2, 7)] 1))) }
       ∧ ((keysMap ([(2, 2)] : Map AccountId CollabShare)).Nodup →
            ∀ q ∈ ([(2, 2)] : Map AccountId CollabShare),
              lookupMap (([(2, 2)] : Map AccountId CollabShare).foldl
                  (fun m q => insertMap m q.1 (5 * q.2))
                  (eraseMap [(1, 5), (2, 7)] 1)) q.1
                = some (5 * q.2))
       ∧ ((keysMap ([(1, 5), (2, 7)] : Map AccountId CollabShare)).Nodup →
            (1 : AccountId) ∉ keysMap ([(2, 2)] : Map AccountId CollabShare) →
              lookupMap (([(2, 2)] : Map AccountId CollabShare).foldl
                  (fun m q => insertMap m q.1 (5 * q.2))
                  (eraseMap [(1, 5), (2, 7)] 1)) 1
                = none)) :=
  ⟨by decide,
    (fractionalise_media_collab_replaces 1 fracSt { media_id := 1, sharings := [(2, 2)] }
        [(1, 5), (2, 7)] (by decide)).2 5 (by decide)
      (by decide)⟩

/-- C9 (amended): governance is unusable for zero-collaborator content —
proposal creation fails with `RequiresCollaborator` when the collaborator
map is empty, and any vote on a proposal whose frozen community is empty
fails with `VoteNotAllowed`; the `yes_count ≥ 0` acceptance branch is
unreachable. -/
theorem zero_collab_governance_unusable (st : MediaStorage) :
    (∀ (caller : AccountId) (now : Nat) (request : UpdateMediaRequest),
        lookupMap st.collaborators_by_media_id request.media_id = some [] →
        create_update_media_proposal caller now st request
          = Except.error Error.RequiresCollaborator)
    ∧ (∀ (caller : AccountId) (now : Nat) (vote : UpdateMediaVote) (p : UpdateMediaProposal),
        lookupMap st.proposals_by_key
            { media_id := vote.media_id, requester := vote.requester_address } = some p →
        lookupMap st.communities_by_proposal_key
            { media_id := vote.media_id, requester := vote.requester_address } = some [] →
        vote_media_update_proposal caller now st vote
          = Except.error Error.VoteNotAllowed) := by
  constructor
  · intro caller now request hcol
    unfold create_update_media_proposal
    dsimp only
    rw [hcol]
    dsimp only
    simp [containsMap, lookupMap]
  · intro caller now vote p hp hcomm
    unfold vote_media_update_proposal
    dsimp only
    rw [hp, hcomm]
    dsimp only
    simp [containsMap, lookupMap]

/-- C9 witness: the amended claim evaluated on `emptyCollabSt`. -/
theorem zero_collab_governance_unusable_witness :
    lookupMap emptyCollabSt.collaborators_by_media_id 1 = some []
    ∧ create_update_media_proposal 7 0 emptyCollabSt updReq
        = Except.error Error.RequiresCollaborator
    ∧ vote_media_update_proposal 11 3 emptyCollabSt
        { media_id := 1, requester_address := 9, vote := true }
        = Except.error Error.VoteNotAllowed :=
  ⟨by decide,
    (zero_collab_governance_unusable emptyCollabSt).1 7 0 updReq (by decide),
    (zero_collab_governance_unusable emptyCollabSt).2 11 3
      { media_id := 1, requester_address := 9, vote := true } emptyProp (by decide) (by decide)⟩

/-- `create_media` never touches the stream association map. -/
theorem create_media_streams_frame (env : Env) (st : MediaStorage) (input : CreateMediaRequest)
    (st' : MediaStorage) (id : MediaId) (h : create_media env st input = Except.ok (st', id)) :
    st'.streams_by_media_id = st.streams_by_media_id := by
  unfold create_media at h
  cases hm : env.mint_result env.caller with
  | error e => rw [hm] at h; cases h
  | ok mid =>
      rw [hm] at h
      dsimp only at h
      cases h
      rfl

/-- `create_update_media_proposal` never touches the stream association
map. -/
theorem create_proposal_streams_frame (caller : AccountId) (now : Nat) (st : MediaStorage)
    (request : UpdateMediaRequest) (st' : MediaStorage)
    (h : create_update_media_proposal caller now st request = Except.ok st') :
    st'.streams_by_media_id = st.streams_by_media_id := by
  unfold create_update_media_proposal at h
  dsimp only at h
  repeat' split at h
  all_goals cases h <;> rfl

/-- `vote_media_update_proposal` never touches the stream association
map. -/
theorem vote_streams_frame (caller : AccountId) (now : Nat) (st : MediaStorage)
    (vote : UpdateMediaVote) (st' : MediaStorage)
    (h : vote_media_update_proposal caller now st vote = Except.ok st') :
    st'.streams_by_media_id = st.streams_by_media_id := by
  unfold vote_media_update_proposal at h
  dsimp only at h
  repeat' split at h
  all_goals cases h <;> rfl

/-- `fractionalise_media_collab` never touches the stream association
map. -/
theorem fractionalise_streams_frame (caller : AccountId) (st : MediaStorage)
    (request : FractionaliseCollabRequest) (st' : MediaStorage)
    (h : fractionalise_media_collab caller st request = Except.ok st') :
    st'.streams_by_media_id = st.streams_by_media_id := by
  unfold fractionalise_media_collab at h
  repeat' split at h
  all_goals cases h <;> rfl

/-- `update_media` never touches the stream association map. -/
theorem update_media_streams_frame (caller : AccountId) (st : MediaStorage) (media : Media)
    (st' : MediaStorage) (old : Media)
    (h : update_media caller st media = Except.ok (st', old)) :
    st'.streams_by_media_id = st.streams_by_media_id := by
  unfold update_media at h
  repeat' split at h
  all_goals cases h <;> rfl

/-- `update_collabs` never touches the stream association map. -/
theorem update_collabs_streams_frame (caller : AccountId) (st : MediaStorage) (id : MediaId)
    (collabs : Map AccountId CollabShare) (st' : MediaStorage)
    (h : update_collabs caller st id collabs = Except.ok st') :
    st'.streams_by_media_id = st.streams_by_media_id := by
  unfold update_collabs at h
  repeat' split at h
  all_goals cases h <;> rfl

/-- `share_media` never touches the stream association map. -/
theorem share_media_streams_frame (caller : AccountId) (st : MediaStorage)
    (request : ShareMediaRequest) (st' : MediaStorage) (sid : SharingId)
    (h : share_media caller st request = Except.ok (st', sid)) :
    st'.streams_by_media_id = st.streams_by_media_id := by
  unfold share_media at h
  dsimp only at h
  repeat' split at h
  all_goals cases h <;> rfl

/-- `close_media` keeps the stream association map empty when it already
is. -/
theorem close_media_streams_frame (env : Env) (st : MediaStorage) (media_id : MediaId)
    (st' : MediaStorage) (h : close_media env st media_id = Except.ok st')
    (he : st.streams_by_media_id = []) : st'.streams_by_media_id = [] := by
  unfold close_media at h
  rw [he] at h
  dsimp only [lookupMap] at h
  cases h
  exact he

/-- C10: in every reachable state the stream association map
(`streams_by_media_id`) is empty — no public operation ever records a
stream id (`open_media` creates streams on the external ledger without
recording them) — hence `close_media` finds no associated streams and
cancels nothing, returning the state unchanged. -/
theorem streams_by_media_id_always_empty (st : MediaStorage) (h : Reachable st) :
    st.streams_by_media_id = []
    ∧ ∀ (env : Env) (media_id : MediaId), close_media env st media_id = Except.ok st := by
  have hempty : st.streams_by_media_id = [] := by
    induction h with
    | init contract_owner => rfl
    | step_create_media env st input st' id hr heq ih =>
        rw [create_media_streams_frame env st input st' id heq]; exact ih
    | step_create_proposal caller now st request st' hr heq ih =>
        rw [create_proposal_streams_frame caller now st request st' heq]; exact ih
    | step_vote caller now st vote st' hr heq ih =>
        rw [vote_streams_frame caller now st vote st' heq]; exact ih
    | step_fractionalise caller st request st' hr heq ih =>
        rw [fractionalise_streams_frame caller st request st' heq]; exact ih
    | step_update_media caller st media st' old hr heq ih =>
        rw [update_media_streams_frame caller st media st' old heq]; exact ih
    | step_update_collabs caller st id collabs st' hr heq ih =>
        rw [update_collabs_streams_frame caller st id collabs st' heq]; exact ih
    | step_share_media caller st request st' sid hr heq ih =>
        rw [share_media_streams_frame caller st request st' sid heq]; exact ih
    | step_close_media env st media_id st' hr heq ih =>
        exact close_media_streams_frame env st media_id st' heq ih
  refine ⟨hempty, ?_⟩
  intro env media_id
  unfold close_media
  rw [hempty]
  rfl

/-- C10 witness: the invariant at the freshly constructed contract. -/
theorem streams_by_media_id_always_empty_witness :
    Reachable (initialStorage 0)
    ∧ ((initialStorage 0).streams_by_media_id = []
       ∧ ∀ (env : Env) (media_id : MediaId),
           close_media env (initialStorage 0) media_id = Except.ok (initialStorage 0)) :=
  ⟨Reachable.init 0, streams_by_media_id_always_empty (initialStorage 0) (Reachable.init 0)⟩
